import Mathlib

/-!
Shallow embedding of the client-side session / authorization pipeline of the
property-management frontend: the axios request and response interceptors
(src/src/layouts/DashboardLayout.tsx, services/api), the route guard and the
route table (src/src/App.tsx), the role-gated navigation
(src/src/components/Sidebar.tsx), the dashboard variant selection
(src/unnamed/part_000) and the login form submission handler
(src/src/pages/Login.tsx).  The AuthContext module itself is not among the
provided sources, so its three operations are modelled from the
specification and marked as such in their doc comments.
-/

namespace PropMgt

/-- A user profile as stored in the session: id, fullName, email,
role (the string ADMIN or STAFF in practice) and status. -/
structure User where
  id : String
  fullName : String
  email : String
  role : String
  status : String
deriving DecidableEq, Repr

/-- The durable client storage (localStorage) keys used by the code:
the token under the key token and the profile under the key user.
A missing key is `none`. -/
structure SessionStore where
  token : Option String
  user : Option User
deriving DecidableEq, Repr

/-- Whole-application state relevant to the session pipeline: the
persisted store and the browser location (window.location.href). -/
structure AppState where
  store : SessionStore
  href : String
deriving DecidableEq, Repr

/-- An outgoing request configuration: the requested url and the value of
the Authorization header, `none` when the header is absent. -/
structure RequestConfig where
  url : String
  authorization : Option String
deriving DecidableEq, Repr

/-- The axios request interceptor of services/api
(src/src/layouts/DashboardLayout.tsx, lines 40 to 46): it reads the token
from localStorage; if a token is present it sets
Authorization to the string Bearer followed by the token, otherwise it
leaves the configuration unchanged. -/
def requestInterceptor (store : SessionStore) (config : RequestConfig) : RequestConfig :=
  match store.token with
  | some t => { config with authorization := some ("Bearer " ++ t) }
  | none => config

/-- Issuing a request through the api client: the initial configuration
carries no Authorization header and the request interceptor runs on it,
reading the store at call time. -/
def issueRequest (store : SessionStore) (url : String) : RequestConfig :=
  requestInterceptor store { url := url, authorization := none }

/-- An HTTP error response: its status code and the optional
data.message field of its payload. -/
structure HttpResponse where
  status : Nat
  message : Option String
deriving DecidableEq, Repr

/-- An axios error object: `response` is `none` for a network-level
failure that produced no response at all. -/
structure ApiError where
  response : Option HttpResponse
deriving DecidableEq, Repr

/-- The axios response interceptor error handler of services/api
(src/src/layouts/DashboardLayout.tsx, lines 48 to 58): when the error has
a response with status 401 it removes the token and the user from
localStorage and sets window.location.href to /login; in every case it
re-rejects the same error object, returned here as the second component. -/
def responseErrorInterceptor (error : ApiError) (s : AppState) : AppState × ApiError :=
  match error.response with
  | some r =>
    if r.status = 401 then
      ({ s with store := { s.store with token := none, user := none }, href := "/login" },
        error)
    else
      (s, error)
  | none => (s, error)

/-- Modelled from the spec: the AuthContext module (imported as
context/AuthContext by App.tsx, Sidebar.tsx and Login.tsx) is not among the
provided sources.  Per spec section 4.3, login stores the token and the
user together via the Session Store. -/
def login (t : String) (u : User) (s : AppState) : AppState :=
  { s with store := { token := some t, user := some u } }

/-- Modelled from the spec: AuthContext logout clears the Session Store,
removing the token and the user together; it does not itself navigate
(spec section 4.3). -/
def logout (s : AppState) : AppState :=
  { s with store := { token := none, user := none } }

/-- Modelled from the spec: AuthContext isAuthenticated is a derived
boolean, true iff a token is currently held (spec section 4.3). -/
def isAuthenticated (s : AppState) : Bool :=
  s.store.token.isSome

/-- The operations that touch session state: an explicit login, an explicit
logout, a request that failed (its error routed through the response
interceptor) and a request that succeeded (the response interceptor's
success branch returns the response unchanged and touches no state). -/
inductive SessionOp where
  | doLogin (t : String) (u : User)
  | doLogout
  | apiFailure (e : ApiError)
  | apiSuccess
deriving DecidableEq, Repr

/-- Effect of one session operation on the application state. -/
def applyOp (s : AppState) : SessionOp → AppState
  | SessionOp.doLogin t u => login t u s
  | SessionOp.doLogout => logout s
  | SessionOp.apiFailure e => (responseErrorInterceptor e s).1
  | SessionOp.apiSuccess => s

/-- Run a sequence of session operations from a starting state. -/
def runOps (s : AppState) (ops : List SessionOp) : AppState :=
  ops.foldl applyOp s

/-- The logged-out starting state: empty storage, sitting on the login
route. -/
def initialState : AppState :=
  { store := { token := none, user := none }, href := "/login" }

/-- The session invariant of the spec data model: the token and the user
are present or absent together. -/
def sessionConsistent (st : SessionStore) : Prop :=
  st.token.isSome = st.user.isSome

/-- Whether an operation is an explicit login. -/
def isLoginOp : SessionOp → Bool
  | SessionOp.doLogin _ _ => true
  | _ => false

/-- What the route guard renders: either a redirect to a path or the
wrapped children unchanged. -/
inductive GuardOutput (α : Type) where
  | navigateTo (target : String)
  | content (children : α)
deriving DecidableEq, Repr

/-- The ProtectedRoute component of src/src/App.tsx, lines 18 to 24: if
isAuthenticated is false it renders a replace-navigation to /login and
nothing else; otherwise it renders exactly its children.  It is a pure
function of the authentication flag and the children: no network call, no
loading state. -/
def ProtectedRoute {α : Type} (isAuth : Bool) (children : α) : GuardOutput α :=
  if !isAuth then GuardOutput.navigateTo "/login" else GuardOutput.content children

/-- The common navigation items of src/src/components/Sidebar.tsx,
lines 16 to 25: name and path of each entry, in source order. -/
def navItems : List (String × String) :=
  [("Dashboard", "/dashboard"),
   ("Tenants", "/dashboard/tenants"),
   ("Properties", "/dashboard/properties"),
   ("Landlords", "/dashboard/landlords"),
   ("Leases", "/dashboard/leases"),
   ("Invoices", "/dashboard/invoices"),
   ("Payments", "/dashboard/payments"),
   ("Maintenance", "/dashboard/maintenance")]

/-- The list of navigation link names the Sidebar renders
(src/src/components/Sidebar.tsx, lines 53 to 88): the mapped common items
followed by an Account Management link exactly when the optional user's
role is the string ADMIN. -/
def sidebarLinks (user : Option User) : List String :=
  navItems.map Prod.fst ++
    (if user.map User.role = some "ADMIN" then ["Account Management"] else [])

/-- Which dashboard variant is rendered. -/
inductive DashboardVariant where
  | staffDashboard
  | adminDashboard
deriving DecidableEq, Repr

/-- The Dashboard component (src/unnamed/part_000, lines 6 to 14): renders
the StaffDashboard exactly when the optional user's role is the string
STAFF, and the AdminDashboard in every other case, including a missing
user. -/
def Dashboard (user : Option User) : DashboardVariant :=
  if user.map User.role = some "STAFF" then DashboardVariant.staffDashboard
  else DashboardVariant.adminDashboard

/-- The pages of the route table of src/src/App.tsx. -/
inductive Page where
  | loginPage
  | dashboardHome
  | tenantsPage
  | propertiesPage
  | landlordsPage
  | leasesPage
  | invoicesPage
  | paymentsPage
  | maintenancePage
  | accountManagementPage
deriving DecidableEq, Repr

/-- Result of resolving a path through the route table. -/
inductive RouteResult where
  | rendersPage (p : Page)
  | redirects (target : String)
  | noMatch
deriving DecidableEq, Repr

/-- The child routes nested under the /dashboard route of
src/src/App.tsx, lines 32 to 41: the nine named children, registered
unconditionally, with no role check (the index child is handled by the
empty segment list in renderRoute). -/
def dashboardChild (sub : String) : Option Page :=
  if sub = "tenants" then some Page.tenantsPage
  else if sub = "properties" then some Page.propertiesPage
  else if sub = "landlords" then some Page.landlordsPage
  else if sub = "leases" then some Page.leasesPage
  else if sub = "invoices" then some Page.invoicesPage
  else if sub = "payments" then some Page.paymentsPage
  else if sub = "maintenance" then some Page.maintenancePage
  else if sub = "account-management" then some Page.accountManagementPage
  else none

/-- The AppRoutes route table of src/src/App.tsx, lines 26 to 48, with a
path given as its list of segments (the list for the root path / is
empty): /login renders the login page, / redirects to /dashboard, and the
/dashboard subtree is wrapped in ProtectedRoute, whose only input is the
authentication flag; inside it the child routes resolve by path alone. -/
def renderRoute (isAuth : Bool) (segments : List String) : RouteResult :=
  match segments with
  | ["login"] => RouteResult.rendersPage Page.loginPage
  | [] => RouteResult.redirects "/dashboard"
  | "dashboard" :: rest =>
    if isAuth then
      match rest with
      | [] => RouteResult.rendersPage Page.dashboardHome
      | [seg] =>
        match dashboardChild seg with
        | some p => RouteResult.rendersPage p
        | none => RouteResult.noMatch
      | _ => RouteResult.noMatch
    else RouteResult.redirects "/login"
  | _ => RouteResult.noMatch

/-- The shape of a successful response of /auth/login as destructured by
Login.tsx: a token and a user. -/
structure LoginResponse where
  token : String
  user : User
deriving DecidableEq, Repr

/-- A user-facing toast notification. -/
inductive Toast where
  | success (msg : String)
  | error (msg : String)
deriving DecidableEq, Repr

/-- The message shown on a failed login
(src/src/pages/Login.tsx, line 34): the response's data.message when
present and non-empty, otherwise the fallback Login failed. -/
def loginErrorMessage (e : ApiError) : String :=
  match e.response.bind HttpResponse.message with
  | some m => if m = "" then "Login failed" else m
  | none => "Login failed"

/-- Observable outcome of one submission of the login form: the resulting
application state, the SPA navigation performed if any, the toasts shown,
and whether the AuthContext login function was invoked. -/
structure SubmitResult where
  state : AppState
  navigatedTo : Option String
  toasts : List Toast
  loginCalled : Bool
deriving DecidableEq, Repr

/-- The onSubmit handler of src/src/pages/Login.tsx, lines 25 to 36: on a
successful response it destructures token and user, calls login with them,
shows one success toast and navigates to /dashboard; on a rejected request
it shows one error toast, does not navigate, does not call login and
leaves the state untouched. -/
def onSubmit (s : AppState) (outcome : Except ApiError LoginResponse) : SubmitResult :=
  match outcome with
  | Except.ok resp =>
    { state := login resp.token resp.user s,
      navigatedTo := some "/dashboard",
      toasts := [Toast.success "Welcome back!"],
      loginCalled := true }
  | Except.error e =>
    { state := s,
      navigatedTo := none,
      toasts := [Toast.error (loginErrorMessage e)],
      loginCalled := false }

/-- A sample admin profile used in witnesses. -/
def adminUser : User :=
  { id := "u1", fullName := "Ada Admin", email := "ada@example.com",
    role := "ADMIN", status := "ACTIVE" }

/-- A sample staff profile used in witnesses. -/
def staffUser : User :=
  { id := "u2", fullName := "Sam Staff", email := "sam@example.com",
    role := "STAFF", status := "ACTIVE" }

/-- Claim C1: for every request issued through the api client, the request
interceptor reads the token from the session store at call time; when a
token is present the outgoing request carries an Authorization header
equal to Bearer followed by the token, and when no token is present the
request carries no Authorization header. -/
theorem c1_request_interceptor_bearer (store : SessionStore) (url : String) :
    (∀ t, store.token = some t →
        (issueRequest store url).authorization = some ("Bearer " ++ t)) ∧
      (store.token = none → (issueRequest store url).authorization = none) := by
  constructor
  · intro t ht
    simp [issueRequest, requestInterceptor, ht]
  · intro ht
    simp [issueRequest, requestInterceptor, ht]

/-- Witness for C1 at a concrete store with and without a token. -/
theorem c1_request_interceptor_bearer_witness :
    (issueRequest { token := some "tok123", user := some adminUser } "/tenants").authorization
        = some "Bearer tok123" ∧
      (issueRequest { token := none, user := none } "/tenants").authorization = none :=
  ⟨(c1_request_interceptor_bearer { token := some "tok123", user := some adminUser }
      "/tenants").1 "tok123" rfl,
    (c1_request_interceptor_bearer { token := none, user := none } "/tenants").2 rfl⟩

/-- Claim C2: for every response error with status 401 processed by the
response interceptor, the handler clears both the stored token and the
stored user, forces a full navigation to the login route, and re-rejects
the same error object. -/
theorem c2_response_interceptor_401 (e : ApiError) (r : HttpResponse) (s : AppState)
    (hr : e.response = some r) (h401 : r.status = 401) :
    (responseErrorInterceptor e s).1.store.token = none ∧
      (responseErrorInterceptor e s).1.store.user = none ∧
      (responseErrorInterceptor e s).1.href = "/login" ∧
      (responseErrorInterceptor e s).2 = e := by
  simp [responseErrorInterceptor, hr, h401]

/-- Witness for C2 at a concrete 401 error. -/
theorem c2_response_interceptor_401_witness :
    (responseErrorInterceptor { response := some { status := 401, message := none } }
        (login "tok123" adminUser initialState)).1.store.token = none ∧
      (responseErrorInterceptor { response := some { status := 401, message := none } }
        (login "tok123" adminUser initialState)).1.store.user = none ∧
      (responseErrorInterceptor { response := some { status := 401, message := none } }
        (login "tok123" adminUser initialState)).1.href = "/login" ∧
      (responseErrorInterceptor { response := some { status := 401, message := none } }
        (login "tok123" adminUser initialState)).2
        = { response := some { status := 401, message := none } } :=
  c2_response_interceptor_401 { response := some { status := 401, message := none } }
    { status := 401, message := none } (login "tok123" adminUser initialState) rfl rfl

/-- Claim C3: in every state reachable from the logged-out initial state
by the session operations (login, logout, the 401 interceptor, and
successful requests), the token and the user are set together and cleared
together. -/
theorem c3_session_invariant (ops : List SessionOp) :
    sessionConsistent (runOps initialState ops).store := by
  suffices h : ∀ s : AppState, sessionConsistent s.store →
      sessionConsistent (runOps s ops).store from h initialState rfl
  induction ops with
  | nil => intro s hs; exact hs
  | cons op rest ih =>
    intro s hs
    refine ih (applyOp s op) ?_
    cases op with
    | doLogin t u => simp [applyOp, login, sessionConsistent]
    | doLogout => simp [applyOp, logout, sessionConsistent]
    | apiSuccess => exact hs
    | apiFailure e =>
      cases hres : e.response with
      | none => simpa [applyOp, responseErrorInterceptor, hres] using hs
      | some r =>
        by_cases h401 : r.status = 401
        · simp [applyOp, responseErrorInterceptor, hres, h401, sessionConsistent]
        · simpa [applyOp, responseErrorInterceptor, hres, h401] using hs

/-- Claim C4: after a request resolves with a 401 error, every request
issued later through the same client without an intervening login carries
no Authorization header, because the 401 handler removed the token the
request interceptor reads. -/
theorem c4_after_401_requests_unauthenticated
    (s : AppState) (e : ApiError) (r : HttpResponse) (later : List SessionOp) (url : String)
    (hr : e.response = some r) (h401 : r.status = 401)
    (hnologin : ∀ op ∈ later, isLoginOp op = false) :
    (issueRequest (runOps (applyOp s (SessionOp.apiFailure e)) later).store url).authorization
      = none := by
  have hkeep : ∀ (ops : List SessionOp) (st : AppState), st.store.token = none →
      (∀ op ∈ ops, isLoginOp op = false) → (runOps st ops).store.token = none := by
    intro ops
    induction ops with
    | nil => intro st h _; exact h
    | cons op rest ih =>
      intro st hst hall
      have hop : isLoginOp op = false := hall op (by simp)
      refine ih (applyOp st op) ?_ (fun o ho => hall o (by simp [ho]))
      cases op with
      | doLogin t u => simp [isLoginOp] at hop
      | doLogout => simp [applyOp, logout]
      | apiSuccess => simpa [applyOp] using hst
      | apiFailure e2 =>
        cases h2 : e2.response with
        | none => simpa [applyOp, responseErrorInterceptor, h2] using hst
        | some r2 =>
          by_cases hs2 : r2.status = 401
          · simp [applyOp, responseErrorInterceptor, h2, hs2]
          · simpa [applyOp, responseErrorInterceptor, h2, hs2] using hst
  have hbase : (applyOp s (SessionOp.apiFailure e)).store.token = none := by
    simp [applyOp, responseErrorInterceptor, hr, h401]
  have htok := hkeep later (applyOp s (SessionOp.apiFailure e)) hbase hnologin
  simp [issueRequest, requestInterceptor, htok]

/-- Witness for C4: a logged-in session processes a 401, then a later
successful call intervenes, and the next request is unauthenticated. -/
theorem c4_after_401_requests_unauthenticated_witness :
    (issueRequest
        (runOps
          (applyOp (login "tok123" staffUser initialState)
            (SessionOp.apiFailure { response := some { status := 401, message := none } }))
          [SessionOp.apiSuccess]).store
        "/landlords").authorization = none :=
  c4_after_401_requests_unauthenticated (login "tok123" staffUser initialState)
    { response := some { status := 401, message := none } }
    { status := 401, message := none } [SessionOp.apiSuccess] "/landlords" rfl rfl
    (by decide)

/-- Claim C5: every error whose response is not a 401 response, including
network-level failures with no response at all, passes through the
response interceptor unchanged: the state (store and navigation) is left
untouched and the same error object is re-raised. -/
theorem c5_non_401_passthrough (e : ApiError) (s : AppState)
    (h : ∀ r, e.response = some r → r.status ≠ 401) :
    responseErrorInterceptor e s = (s, e) := by
  cases hres : e.response with
  | none => simp [responseErrorInterceptor, hres]
  | some r => simp [responseErrorInterceptor, hres, h r hres]

/-- Witness for C5 at a concrete 500 error and a concrete network-level
failure with no response. -/
theorem c5_non_401_passthrough_witness :
    responseErrorInterceptor { response := some { status := 500, message := none } }
        (login "tok123" adminUser initialState)
        = (login "tok123" adminUser initialState,
            { response := some { status := 500, message := none } }) ∧
      responseErrorInterceptor { response := none } (login "tok123" adminUser initialState)
        = (login "tok123" adminUser initialState, { response := none }) :=
  ⟨c5_non_401_passthrough { response := some { status := 500, message := none } }
      (login "tok123" adminUser initialState) (by decide),
    c5_non_401_passthrough { response := none } (login "tok123" adminUser initialState)
      (by decide)⟩

/-- Claim C6: the route guard is purely derived from the authentication
flag; when isAuthenticated is false its output is a redirect to the login
route and never the protected content, and when true its output is
exactly the wrapped subtree unchanged. -/
theorem c6_protected_route (α : Type) (children : α) :
    ProtectedRoute false children = GuardOutput.navigateTo "/login" ∧
      (∀ c : α, ProtectedRoute false children ≠ GuardOutput.content c) ∧
      ProtectedRoute true children = GuardOutput.content children := by
  refine ⟨rfl, ?_, rfl⟩
  intro c h
  exact GuardOutput.noConfusion h

/-- Claim C7: for every authenticated user, the navigation renders the
eight common entries in order and appends the Account Management entry
exactly when the role is ADMIN; the Dashboard renders the staff variant
when the role is STAFF and the admin variant when the role is ADMIN. -/
theorem c7_role_gated_navigation (u : User) :
    sidebarLinks (some u)
        = ["Dashboard", "Tenants", "Properties", "Landlords", "Leases",
            "Invoices", "Payments", "Maintenance"] ++
            (if u.role = "ADMIN" then ["Account Management"] else []) ∧
      ("Account Management" ∈ sidebarLinks (some u) ↔ u.role = "ADMIN") ∧
      (u.role = "STAFF" → Dashboard (some u) = DashboardVariant.staffDashboard) ∧
      (u.role = "ADMIN" → Dashboard (some u) = DashboardVariant.adminDashboard) := by
  have hlinks : sidebarLinks (some u)
      = ["Dashboard", "Tenants", "Properties", "Landlords", "Leases",
          "Invoices", "Payments", "Maintenance"] ++
          (if u.role = "ADMIN" then ["Account Management"] else []) := by
    simp [sidebarLinks, navItems]
  refine ⟨hlinks, ?_, ?_, ?_⟩
  · constructor
    · intro hmem
      by_contra hrole
      rw [hlinks, if_neg hrole] at hmem
      exact absurd hmem (by decide)
    · intro hrole
      rw [hlinks, if_pos hrole]
      decide
  · intro hrole
    simp [Dashboard, hrole]
  · intro hrole
    simp [Dashboard, hrole]

/-- Witness for C7: the admin sees the Account Management entry and the
staff user gets the staff dashboard variant. -/
theorem c7_role_gated_navigation_witness :
    "Account Management" ∈ sidebarLinks (some adminUser) ∧
      Dashboard (some staffUser) = DashboardVariant.staffDashboard :=
  ⟨(c7_role_gated_navigation adminUser).2.1.mpr rfl,
    (c7_role_gated_navigation staffUser).2.2.1 rfl⟩

/-- Claim C8: submitting the login form on a successful authentication
stores the returned token and user via login, shows one success toast and
navigates to the fixed dashboard path; a rejected authentication shows
exactly one error toast, performs no navigation (the form stays open),
never calls login and leaves the session state untouched. -/
theorem c8_login_submit (s : AppState) (resp : LoginResponse) (e : ApiError) :
    (onSubmit s (Except.ok resp)).state.store
        = { token := some resp.token, user := some resp.user } ∧
      (onSubmit s (Except.ok resp)).navigatedTo = some "/dashboard" ∧
      (onSubmit s (Except.ok resp)).toasts = [Toast.success "Welcome back!"] ∧
      (onSubmit s (Except.ok resp)).loginCalled = true ∧
      (onSubmit s (Except.error e)).state = s ∧
      (onSubmit s (Except.error e)).navigatedTo = none ∧
      (onSubmit s (Except.error e)).toasts = [Toast.error (loginErrorMessage e)] ∧
      (onSubmit s (Except.error e)).loginCalled = false := by
  simp [onSubmit, login]

/-- Claim C9: the Dashboard treats the admin variant as the default
branch: a missing user renders the AdminDashboard, every role other than
STAFF renders the AdminDashboard, and only the role STAFF selects the
staff variant. -/
theorem c9_dashboard_defaults_admin :
    Dashboard none = DashboardVariant.adminDashboard ∧
      (∀ u : User, u.role ≠ "STAFF" → Dashboard (some u) = DashboardVariant.adminDashboard) ∧
      (∀ u : User, u.role = "STAFF" → Dashboard (some u) = DashboardVariant.staffDashboard) := by
  refine ⟨rfl, ?_, ?_⟩
  · intro u hrole
    simp [Dashboard, hrole]
  · intro u hrole
    simp [Dashboard, hrole]

/-- Claim C10: role gating controls only the navigation entries, never the
route table: the account-management route is registered unconditionally
under the authenticated shell and the guard checks only the
authentication flag, so an authenticated STAFF user who navigates
directly to the account-management path gets the AccountManagement page,
even though the sidebar shows no Account Management entry. -/
theorem c10_account_management_route_for_staff (s : AppState) (t : String) (u : User)
    (htok : s.store.token = some t) (hrole : u.role = "STAFF") :
    renderRoute (isAuthenticated s) ["dashboard", "account-management"]
        = RouteResult.rendersPage Page.accountManagementPage ∧
      "Account Management" ∉ sidebarLinks (some u) := by
  have hauth : isAuthenticated s = true := by
    simp [isAuthenticated, htok]
  constructor
  · rw [hauth]
    decide
  · simp [sidebarLinks, navItems, hrole]

/-- Witness for C10: a logged-in staff session resolves the
account-management path to the AccountManagement page while the sidebar
omits the entry. -/
theorem c10_account_management_route_for_staff_witness :
    renderRoute (isAuthenticated (login "tok123" staffUser initialState))
        ["dashboard", "account-management"]
        = RouteResult.rendersPage Page.accountManagementPage ∧
      "Account Management" ∉ sidebarLinks (some staffUser) :=
  c10_account_management_route_for_staff (login "tok123" staffUser initialState)
    "tok123" staffUser rfl rfl

end PropMgt
